import Mathlib

/-!
Verification of the BroadbandX dynamic pricing engine
(`ml/models/pricing_model.py`, with configuration from `ml/config.py` and the
segment table consumed by `ml/models/segmentation_model.py`).

Numeric computations are modelled over `ℚ`.  Python's `round(x, n)`
(round half to even) is modelled by `roundTo n`.  Operations that can raise
an uncaught `ZeroDivisionError` in the source are modelled as
`Option`-valued, returning `none` exactly when the source reaches a division
whose divisor is zero.

The engine is modelled in the state in which no fitted churn or segmentation
collaborator is attached, so the three estimators follow their heuristic
fallback branches.  The value a fitted segmentation collaborator would
deliver is modelled separately by `delegated_price_elasticity`, the
`price_elasticity` lookup performed by `predict_single` over the
`SEGMENTATION_CONFIG` segment table.
-/

/-- Round half to even of a rational, as Python's builtin `round` does. -/
def roundHalfEven (q : ℚ) : ℤ :=
  if q - ⌊q⌋ < 1/2 then ⌊q⌋
  else if 1/2 < q - ⌊q⌋ then ⌊q⌋ + 1
  else if ⌊q⌋ % 2 = 0 then ⌊q⌋ else ⌊q⌋ + 1

/-- Python `round(q, n)`: round to `n` decimal places, half to even. -/
def roundTo (n : ℕ) (q : ℚ) : ℚ :=
  (roundHalfEven (q * 10 ^ n) : ℚ) / 10 ^ n

/-- The weights dict of the engine: `{alpha, beta, gamma}`. -/
structure Weights where
  alpha : ℚ
  beta : ℚ
  gamma : ℚ
deriving DecidableEq

/-- The constraints dict of the engine. -/
structure Constraints where
  min_discount : ℚ
  max_premium : ℚ
  churn_threshold : ℚ
deriving DecidableEq

/-- The demand_factors dict of the engine. -/
structure DemandFactors where
  peak_hours : ℕ × ℕ
  peak_multiplier : ℚ
  offpeak_multiplier : ℚ
  weekend_multiplier : ℚ
deriving DecidableEq

/-- PRICING_CONFIG weights (`ml/config.py` lines 137-141). -/
def defaultWeights : Weights := ⟨0.15, 0.10, 0.20⟩

/-- PRICING_CONFIG constraints (`ml/config.py` lines 143-147). -/
def defaultConstraints : Constraints := ⟨-0.30, 0.20, 0.70⟩

/-- PRICING_CONFIG demand_factors (`ml/config.py` lines 149-154). -/
def defaultDemandFactors : DemandFactors := ⟨(18, 22), 0.15, -0.10, 0.05⟩

/-- A point in time, as the pricing engine reads it from a Python `datetime`:
the hour of day (`timestamp.hour`) and the day of week
(`timestamp.weekday()`, Monday = 0 .. Sunday = 6). -/
structure Timestamp where
  hour : Fin 24
  weekday : Fin 7
deriving DecidableEq

/-- A customer feature dictionary: finitely many named numeric features;
every lookup supplies a default, as `dict.get` does. -/
abbrev Features := List (String × ℚ)

/-- Python `features.get(key, dflt)`. -/
def Features.get (f : Features) (key : String) (dflt : ℚ) : ℚ :=
  (List.lookup key f).getD dflt

/-- `calculate_demand_factor` (pricing_model.py lines 59-90), evaluated at its
effective timestamp (the explicit argument, or the current time when the
caller passed none). -/
def calculate_demand_factor (df : DemandFactors) (ts : Timestamp) : ℚ :=
  let hour := (ts.hour : ℕ)
  let peak_start := df.peak_hours.1
  let peak_end := df.peak_hours.2
  let demand :=
    if peak_start ≤ hour ∧ hour ≤ peak_end then df.peak_multiplier
    else df.offpeak_multiplier
  let demand :=
    if 5 ≤ (ts.weekday : ℕ) then demand + df.weekend_multiplier else demand
  roundTo 4 demand

/-- Heuristic branch of `estimate_price_elasticity` (lines 92-132), taken when
no fitted segmentation collaborator is attached. -/
def estimate_price_elasticity (features : Features) : ℚ :=
  let nps := features.get "nps_score" 5
  let plan_price := features.get "plan_price" 1000
  let usage := features.get "avg_monthly_usage_gb" 200
  let nps_factor := nps / 10
  let price_factor := min (plan_price / 2000) 1
  let usage_factor := min (usage / 500) 1
  let elasticity := -2.0 + nps_factor * 0.7 + price_factor * 0.5 + usage_factor * 0.3
  let elasticity := max (-2.5) (min (-0.2) elasticity)
  roundTo 2 elasticity

/-- The `normalize` helper local to `calculate_churn_risk` (lines 156-157);
named `normalizeVal` here because Mathlib already declares `normalize`. -/
def normalizeVal (val min_val max_val : ℚ) : ℚ :=
  max 0 (min 1 ((val - min_val) / (max_val - min_val)))

/-- Heuristic branch of `calculate_churn_risk` (lines 134-173), taken when no
fitted churn collaborator is attached. -/
def calculate_churn_risk (features : Features) : ℚ :=
  let usage_decline := -(features.get "usage_change_30d" 0)
  let days_inactive := features.get "days_since_login" 0
  let payment_issues := features.get "payment_failures_90d" 0
  let support_tickets := features.get "support_tickets" 0
  let nps := features.get "nps_score" 5
  roundTo 4
    (0.25 * normalizeVal usage_decline 0 30 +
     0.20 * normalizeVal days_inactive 0 30 +
     0.20 * normalizeVal payment_issues 0 3 +
     0.15 * normalizeVal support_tickets 0 5 +
     0.20 * (1 - nps / 10))

/-- Elasticity of each entry of SEGMENTATION_CONFIG segment_definitions
(`ml/config.py` lines 125-131); `none` for an id outside the table. -/
def segment_elasticity : ℕ → Option ℚ
  | 0 => some (-0.3)
  | 1 => some (-1.8)
  | 2 => some (-1.2)
  | 3 => some (-2.0)
  | 4 => some (-0.5)
  | _ => none

/-- The price_elasticity value returned by the segmentation collaborator's
`predict_single` (segmentation_model.py lines 281-314): the elasticity of the
predicted segment's profile, each profile holding the elasticity of one
segment_definitions entry, with the default -1.0 when the predicted id has no
profile.  The delegated branch of `estimate_price_elasticity` (line 112)
returns this value unchanged. -/
def delegated_price_elasticity (segment_id : ℕ) : ℚ :=
  (segment_elasticity segment_id).getD (-1.0)

/-- A pricing result dict (lines 235-252), all fields except the weights
entry, which is modelled by `recordedWeights` because the source stores a
live reference rather than a value. -/
structure PricingResult where
  base_price : ℚ
  dynamic_price : ℚ
  price_change : ℚ
  price_change_percent : ℚ
  demand_factor : ℚ
  elasticity : ℚ
  elasticity_factor : ℚ
  churn_risk : ℚ
  adjustment : ℚ
  recommendation : String
  ts : Timestamp
deriving DecidableEq

/-- The mutable state of a DynamicPricingEngine instance. -/
structure EngineState where
  weights : Weights
  constraints : Constraints
  demand_factors : DemandFactors
  history : List PricingResult
deriving DecidableEq

/-- A freshly constructed engine (`__init__`, lines 33-41): copies of the
PRICING_CONFIG dicts and an empty history. -/
def initEngine : EngineState := ⟨defaultWeights, defaultConstraints, defaultDemandFactors, []⟩

/-- Reading the weights entry of the history item at index `i`: in the source
each stored result holds a reference to the engine's live weights dict
(line 246, `"weights": self.weights`, never copied), and `update_weights`
mutates that dict in place, so the observed weights entry of every stored
result is the engine's current weights. -/
def recordedWeights (s : EngineState) (_i : ℕ) : Weights := s.weights

/-- The elasticity normalization of line 207. -/
def elasticityFactor (elasticity : ℚ) : ℚ :=
  max 0 (min 1 ((-elasticity - 0.2) / 2.3))

/-- The combined adjustment of lines 211-218, before constraints. -/
def rawAdjustment (w : Weights) (demand elasticity churn_risk : ℚ) : ℚ :=
  w.alpha * demand + w.beta * (-(elasticityFactor elasticity)) + (-(churn_risk * w.gamma))

/-- The adjustment after the constraint clamp of lines 221-224. -/
def clampedAdjustment (w : Weights) (c : Constraints) (demand elasticity churn_risk : ℚ) : ℚ :=
  max c.min_discount (min c.max_premium (rawAdjustment w demand elasticity churn_risk))

/-- The dynamic price of lines 227-230: the raw price with the 0.5 floor
safety net, before the 2-decimal rounding applied when it is stored. -/
def dynamicPriceRaw (base_price adjustment : ℚ) : ℚ :=
  max (base_price * 0.5) (base_price * (1 + adjustment))

/-- The adjustment actually applied by a call of `calculate_dynamic_price` on
state `s` with the given features and effective timestamp. -/
def adjustmentOf (s : EngineState) (features : Features) (ts : Timestamp) : ℚ :=
  clampedAdjustment s.weights s.constraints
    (calculate_demand_factor s.demand_factors ts)
    (estimate_price_elasticity features)
    (calculate_churn_risk features)

/-- `_generate_recommendation` (lines 259-273); its argument is the rounded
price_change_percent entry of the result being built. -/
def generate_recommendation (change_pct : ℚ) : String :=
  if change_pct < -20 then "High retention risk. Apply maximum discount with loyalty offer."
  else if change_pct < -10 then "Moderate retention risk. Offer promotional discount."
  else if change_pct < 0 then "Slight concern. Consider small incentive to maintain engagement."
  else if change_pct ≤ 10 then "Customer is stable. Standard pricing applies."
  else "High-value customer. Premium pricing acceptable."

/-- The result dict built at lines 235-252. -/
def mkPricingResult (s : EngineState) (base_price : ℚ) (features : Features)
    (ts : Timestamp) : PricingResult :=
  let demand_factor := calculate_demand_factor s.demand_factors ts
  let elasticity := estimate_price_elasticity features
  let churn_risk := calculate_churn_risk features
  let adjustment := clampedAdjustment s.weights s.constraints demand_factor elasticity churn_risk
  let dynamic_price := dynamicPriceRaw base_price adjustment
  let pct := roundTo 2 ((dynamic_price - base_price) / base_price * 100)
  { base_price := base_price
    dynamic_price := roundTo 2 dynamic_price
    price_change := roundTo 2 (dynamic_price - base_price)
    price_change_percent := pct
    demand_factor := demand_factor
    elasticity := elasticity
    elasticity_factor := roundTo 4 (elasticityFactor elasticity)
    churn_risk := churn_risk
    adjustment := roundTo 4 adjustment
    recommendation := generate_recommendation pct
    ts := ts }

/-- `calculate_dynamic_price` (lines 175-257), with `ts` the effective
timestamp.  When base_price = 0 the source raises ZeroDivisionError at
line 233 before any result is built or appended, modelled as `none`. -/
def calculate_dynamic_price (s : EngineState) (base_price : ℚ) (features : Features)
    (ts : Timestamp) : Option (EngineState × PricingResult) :=
  if base_price = 0 then none
  else
    let result := mkPricingResult s base_price features ts
    some ({ s with history := s.history ++ [result] }, result)

/-- `update_weights` (lines 354-375): three sequential in-place updates of the
weights dict, each skipped when its argument is None. -/
def update_weights (s : EngineState) (alpha beta gamma : Option ℚ) : EngineState :=
  let s1 := match alpha with
    | some a => { s with weights := { s.weights with alpha := a } }
    | none => s
  let s2 := match beta with
    | some b => { s1 with weights := { s1.weights with beta := b } }
    | none => s1
  match gamma with
  | some g => { s2 with weights := { s2.weights with gamma := g } }
  | none => s2

/-- The aggregate dict returned by `optimize_revenue` (lines 303-313). -/
structure RevenueResult where
  total_base_revenue : ℚ
  total_dynamic_revenue : ℚ
  revenue_change : ℚ
  revenue_change_percent : ℚ
  customers_processed : ℕ
  avg_price_change_pct : ℚ
  individual_results : List PricingResult
deriving DecidableEq

/-- The per-customer loop of `optimize_revenue` (lines 290-298): threads the
engine state, collects the individual results and accumulates the base and
dynamic revenue totals. -/
def optimize_loop (now : Timestamp) :
    EngineState → List (Features × ℚ) → Option (EngineState × List PricingResult × ℚ × ℚ)
  | s, [] => some (s, [], 0, 0)
  | s, (features, bp) :: rest =>
    match calculate_dynamic_price s bp features now with
    | none => none
    | some (s1, r) =>
      match optimize_loop now s1 rest with
      | none => none
      | some (s2, rs, tb, td) => some (s2, r :: rs, bp + tb, r.dynamic_price + td)

/-- `optimize_revenue` (lines 275-313); `now` is the current time, used
because the inner calls pass no timestamp.  `none` models an uncaught
ZeroDivisionError: inside a per-customer call with a zero base price, at
line 301 when total_base_revenue is 0, or at line 310 when results is
empty. -/
def optimize_revenue (s : EngineState) (customers : List Features)
    (base_prices : List ℚ) (now : Timestamp) : Option (EngineState × RevenueResult) :=
  match optimize_loop now s (customers.zip base_prices) with
  | none => none
  | some (s1, results, total_base, total_dyn) =>
    if total_base = 0 then none
    else if results.length = 0 then none
    else some (s1,
      { total_base_revenue := roundTo 2 total_base
        total_dynamic_revenue := roundTo 2 total_dyn
        revenue_change := roundTo 2 (total_dyn - total_base)
        revenue_change_percent := roundTo 2 ((total_dyn - total_base) / total_base * 100)
        customers_processed := customers.length
        avg_price_change_pct :=
          roundTo 2 ((results.map PricingResult.price_change_percent).sum / (results.length : ℚ))
        individual_results := results })

/-- The dict returned by `calculate_roi_projection` (lines 406-413). -/
structure RoiResult where
  customers_saved : ℚ
  revenue_saved : ℚ
  implementation_cost : ℚ
  net_benefit : ℚ
  roi_percent : ℚ
  payback_months : ℚ
deriving DecidableEq

/-- `calculate_roi_projection` (lines 381-413).  The source contains no guard
or handler, so `none` models an uncaught ZeroDivisionError: at line 404 when
implementation_cost is 0, and at line 412 when avg_lifetime_months is 0
(inner division) or when revenue_saved is 0 (the divisor
revenue_saved / avg_lifetime_months is then 0). -/
def calculate_roi_projection (customers_saved avg_revenue_per_user avg_lifetime_months
    implementation_cost : ℚ) : Option RoiResult :=
  let revenue_saved := customers_saved * avg_revenue_per_user * avg_lifetime_months
  let net_benefit := revenue_saved - implementation_cost
  if implementation_cost = 0 then none
  else if avg_lifetime_months = 0 then none
  else if revenue_saved = 0 then none
  else some
    { customers_saved := customers_saved
      revenue_saved := roundTo 2 revenue_saved
      implementation_cost := implementation_cost
      net_benefit := roundTo 2 net_benefit
      roi_percent := roundTo 2 (net_benefit / implementation_cost * 100)
      payback_months := roundTo 1 (implementation_cost / (revenue_saved / avg_lifetime_months)) }

/-- A feature dictionary with every key absent, so every lookup takes its
default. -/
def testFeatures : Features := []

/-- Monday 8 PM: a weekday timestamp inside the configured peak window. -/
def testTs : Timestamp := ⟨⟨20, by norm_num⟩, ⟨0, by norm_num⟩⟩

/-- Projects the engine state out of a call result, for building concrete
states whose history is a result the engine itself returned. -/
def stateAfter (o : Option (EngineState × PricingResult)) : EngineState :=
  match o with
  | some p => p.1
  | none => initEngine

/-- Lower bound: rounding half to even never drops below an integer lower
bound of the argument. -/
theorem le_roundHalfEven {m : ℤ} {q : ℚ} (h : (m : ℚ) ≤ q) : m ≤ roundHalfEven q := by
  have hf : m ≤ ⌊q⌋ := Int.le_floor.mpr h
  unfold roundHalfEven
  split_ifs <;> omega

/-- Upper bound: rounding half to even never exceeds an integer upper bound
of the argument. -/
theorem roundHalfEven_le {M : ℤ} {q : ℚ} (h : q ≤ (M : ℚ)) : roundHalfEven q ≤ M := by
  have hf : ⌊q⌋ ≤ M := by
    have h2 := Int.floor_le_floor h
    simpa using h2
  have hfl : (⌊q⌋ : ℚ) ≤ q := Int.floor_le q
  unfold roundHalfEven
  split_ifs with h1 h2 h3
  · exact hf
  · have hq : (⌊q⌋ : ℚ) < q := by linarith
    have : ⌊q⌋ < M := by exact_mod_cast hq.trans_le h
    omega
  · exact hf
  · have hq : (⌊q⌋ : ℚ) < q := by
      have hge : (1 : ℚ)/2 ≤ q - ⌊q⌋ := not_lt.mp h1
      linarith
    have : ⌊q⌋ < M := by exact_mod_cast hq.trans_le h
    omega

/-- Lower bound for `roundTo` at a bound that is an exact multiple of
`10 ^ (-n)`. -/
theorem le_roundTo {n : ℕ} {m : ℤ} {q : ℚ} (h : (m : ℚ) / 10 ^ n ≤ q) :
    (m : ℚ) / 10 ^ n ≤ roundTo n q := by
  have hp : (0 : ℚ) < 10 ^ n := by positivity
  have h1 : (m : ℚ) ≤ q * 10 ^ n := by
    rw [div_le_iff₀ hp] at h
    exact h
  have h2 : m ≤ roundHalfEven (q * 10 ^ n) := le_roundHalfEven h1
  unfold roundTo
  have h3 : (m : ℚ) ≤ (roundHalfEven (q * 10 ^ n) : ℚ) := by exact_mod_cast h2
  exact div_le_div_of_nonneg_right h3 hp.le

/-- Upper bound for `roundTo` at a bound that is an exact multiple of
`10 ^ (-n)`. -/
theorem roundTo_le {n : ℕ} {M : ℤ} {q : ℚ} (h : q ≤ (M : ℚ) / 10 ^ n) :
    roundTo n q ≤ (M : ℚ) / 10 ^ n := by
  have hp : (0 : ℚ) < 10 ^ n := by positivity
  have h1 : q * 10 ^ n ≤ (M : ℚ) := by
    rw [le_div_iff₀ hp] at h
    exact h
  have h2 : roundHalfEven (q * 10 ^ n) ≤ M := roundHalfEven_le h1
  have h3 : (roundHalfEven (q * 10 ^ n) : ℚ) ≤ (M : ℚ) := by exact_mod_cast h2
  unfold roundTo
  exact div_le_div_of_nonneg_right h3 hp.le

/-- Zero is preserved as a lower bound by rounding. -/
theorem roundTo_nonneg {n : ℕ} {q : ℚ} (h : 0 ≤ q) : 0 ≤ roundTo n q := by
  have h0 : ((0 : ℤ) : ℚ) / 10 ^ n ≤ q := by simpa using h
  have := le_roundTo h0
  simpa using this

/-- One is preserved as an upper bound by rounding. -/
theorem roundTo_le_one {n : ℕ} {q : ℚ} (h : q ≤ 1) : roundTo n q ≤ 1 := by
  have hp : (0 : ℚ) < 10 ^ n := by positivity
  have hM : ((10 ^ n : ℤ) : ℚ) / 10 ^ n = 1 := by
    push_cast
    field_simp
  have h1 : q ≤ ((10 ^ n : ℤ) : ℚ) / 10 ^ n := by rw [hM]; exact h
  have := roundTo_le h1
  rwa [hM] at this

/-- The clamp pattern `max a (min b x)` lands in `[a, b]` whenever `a ≤ b`. -/
theorem clamp_mem {a b x : ℚ} (h : a ≤ b) :
    a ≤ max a (min b x) ∧ max a (min b x) ≤ b :=
  ⟨le_max_left _ _, max_le h (min_le_left _ _)⟩

/-- C1: in `calculate_dynamic_price`, the elasticity factor is
`clamp((-elasticity - 0.2) / 2.3, 0, 1)`, the adjustment is
`alpha * demand - beta * elasticity_factor - gamma * churn_risk` clamped into
`[min_discount, max_premium]`, hence `min_discount ≤ adjustment ≤ max_premium`
holds for the adjustment applied by every call, for any combination of
demand, elasticity and churn inputs (given the configuration invariant
`min_discount ≤ max_premium`). -/
theorem adjustment_within_constraints (s : EngineState) (d e c : ℚ)
    (features : Features) (ts : Timestamp)
    (h : s.constraints.min_discount ≤ s.constraints.max_premium) :
    clampedAdjustment s.weights s.constraints d e c =
      max s.constraints.min_discount (min s.constraints.max_premium
        (s.weights.alpha * d - s.weights.beta * max 0 (min 1 ((-e - 0.2) / 2.3))
          - s.weights.gamma * c)) ∧
    s.constraints.min_discount ≤ clampedAdjustment s.weights s.constraints d e c ∧
    clampedAdjustment s.weights s.constraints d e c ≤ s.constraints.max_premium ∧
    s.constraints.min_discount ≤ adjustmentOf s features ts ∧
    adjustmentOf s features ts ≤ s.constraints.max_premium := by
  have harg : ∀ x y z : ℚ, rawAdjustment s.weights x y z =
      s.weights.alpha * x - s.weights.beta * max 0 (min 1 ((-y - 0.2) / 2.3))
        - s.weights.gamma * z := by
    intro x y z
    unfold rawAdjustment elasticityFactor
    ring
  refine ⟨?_, ?_, ?_, ?_, ?_⟩
  · unfold clampedAdjustment
    rw [harg]
  · exact (clamp_mem h).1
  · exact (clamp_mem h).2
  · exact (clamp_mem h).1
  · exact (clamp_mem h).2

/-- Witness for C1 at a concrete state and concrete demand, elasticity and
churn inputs. -/
theorem adjustment_within_constraints_witness :
    initEngine.constraints.min_discount ≤ initEngine.constraints.max_premium ∧
    (clampedAdjustment initEngine.weights initEngine.constraints 1 (-3) 2 =
      max initEngine.constraints.min_discount (min initEngine.constraints.max_premium
        (initEngine.weights.alpha * 1
          - initEngine.weights.beta * max 0 (min 1 ((-(-3) - 0.2) / 2.3))
          - initEngine.weights.gamma * 2)) ∧
    initEngine.constraints.min_discount ≤
      clampedAdjustment initEngine.weights initEngine.constraints 1 (-3) 2 ∧
    clampedAdjustment initEngine.weights initEngine.constraints 1 (-3) 2 ≤
      initEngine.constraints.max_premium ∧
    initEngine.constraints.min_discount ≤ adjustmentOf initEngine testFeatures testTs ∧
    adjustmentOf initEngine testFeatures testTs ≤ initEngine.constraints.max_premium) :=
  ⟨by norm_num [initEngine, defaultConstraints],
    adjustment_within_constraints initEngine 1 (-3) 2 testFeatures testTs
      (by norm_num [initEngine, defaultConstraints])⟩

/-- C4: `calculate_roi_projection` with zero projected revenue saved reaches
the division by zero in the payback_months computation with no guard or
handler in the source, so no result is produced (an uncaught
ZeroDivisionError propagates, modelled as `none`) instead of the caught,
reported domain error that the specification requires. -/
theorem roi_projection_zero_revenue_crashes :
    calculate_roi_projection 0 500 24 1000000 = none := by
  unfold calculate_roi_projection
  norm_num

/-- C9: `update_weights` is a partial update: each argument passed as None
leaves the corresponding weight unchanged, any supplied value is stored
verbatim with no bounds validation, and the engine's constraints,
demand-factor configuration and pricing history are unchanged by the
call. -/
theorem update_weights_partial_and_frame (s : EngineState) (alpha beta gamma : Option ℚ) :
    (update_weights s alpha beta gamma).weights.alpha = alpha.getD s.weights.alpha ∧
    (update_weights s alpha beta gamma).weights.beta = beta.getD s.weights.beta ∧
    (update_weights s alpha beta gamma).weights.gamma = gamma.getD s.weights.gamma ∧
    (update_weights s alpha beta gamma).constraints = s.constraints ∧
    (update_weights s alpha beta gamma).demand_factors = s.demand_factors ∧
    (update_weights s alpha beta gamma).history = s.history := by
  rcases alpha with _ | a <;> rcases beta with _ | b <;> rcases gamma with _ | g <;>
    simp [update_weights]

/-- The demand factor as the specification words it: four cases over
peak/off-peak and Saturday-or-Sunday, with weekend-peak equal to
peak_multiplier + weekend_multiplier, rounded to 4 decimal places. -/
def demandFactorSpec (df : DemandFactors) (ts : Timestamp) : ℚ :=
  if (df.peak_hours.1 ≤ (ts.hour : ℕ) ∧ (ts.hour : ℕ) ≤ df.peak_hours.2) ∧
      ((ts.weekday : ℕ) = 5 ∨ (ts.weekday : ℕ) = 6) then
    df.peak_multiplier + df.weekend_multiplier
  else if ¬ (df.peak_hours.1 ≤ (ts.hour : ℕ) ∧ (ts.hour : ℕ) ≤ df.peak_hours.2) ∧
      ((ts.weekday : ℕ) = 5 ∨ (ts.weekday : ℕ) = 6) then
    df.offpeak_multiplier + df.weekend_multiplier
  else if df.peak_hours.1 ≤ (ts.hour : ℕ) ∧ (ts.hour : ℕ) ≤ df.peak_hours.2 then
    df.peak_multiplier
  else df.offpeak_multiplier

/-- C7: for every explicit timestamp, `calculate_demand_factor` returns
peak_multiplier when the hour lies in the peak window inclusive on both
ends, otherwise offpeak_multiplier, with weekend_multiplier added on top on
Saturday and Sunday, rounded to 4 decimal places; as a function of the
timestamp and the static demand configuration it is pure, so repeated calls
on the same timestamp return the same factor. -/
theorem demand_factor_matches_spec (df : DemandFactors) (ts : Timestamp) :
    calculate_demand_factor df ts = roundTo 4 (demandFactorSpec df ts) := by
  have h7 := ts.weekday.isLt
  have hw : (5 ≤ (ts.weekday : ℕ)) ↔ ((ts.weekday : ℕ) = 5 ∨ (ts.weekday : ℕ) = 6) := by
    omega
  unfold calculate_demand_factor demandFactorSpec
  by_cases hp : df.peak_hours.1 ≤ (ts.hour : ℕ) ∧ (ts.hour : ℕ) ≤ df.peak_hours.2 <;>
    by_cases hk : 5 ≤ (ts.weekday : ℕ)
  · simp [hp, hk, hw.mp hk]
  · simp [hp, hk, mt hw.mpr hk]
  · simp [hp, hk, hw.mp hk]
  · simp [hp, hk, mt hw.mpr hk]

/-- C8: the recommendation string of every call is determined solely by
fixed thresholds on the (rounded) price_change_percent: below -20 the
maximum-discount-with-loyalty-offer message; in [-20, -10) the
promotional-discount message; in [-10, 0) the small-incentive message; in
[0, 10] the stable/standard-pricing message; above 10 the
premium-pricing-acceptable message. -/
theorem recommendation_thresholds :
    (∀ p : ℚ,
      (generate_recommendation p =
          "High retention risk. Apply maximum discount with loyalty offer." ↔ p < -20) ∧
      (generate_recommendation p =
          "Moderate retention risk. Offer promotional discount." ↔ -20 ≤ p ∧ p < -10) ∧
      (generate_recommendation p =
          "Slight concern. Consider small incentive to maintain engagement." ↔ -10 ≤ p ∧ p < 0) ∧
      (generate_recommendation p =
          "Customer is stable. Standard pricing applies." ↔ 0 ≤ p ∧ p ≤ 10) ∧
      (generate_recommendation p =
          "High-value customer. Premium pricing acceptable." ↔ 10 < p)) ∧
    ∀ (s : EngineState) (bp : ℚ) (f : Features) (ts : Timestamp),
      (calculate_dynamic_price s bp f ts).map (fun pr => pr.2.recommendation) =
      (calculate_dynamic_price s bp f ts).map
        (fun pr => generate_recommendation pr.2.price_change_percent) := by
  constructor
  swap
  · intro s bp f ts
    by_cases hbp : bp = 0
    · simp [calculate_dynamic_price, hbp]
    · unfold calculate_dynamic_price
      rw [if_neg hbp]
      simp only [Option.map_some']
      rfl
  intro p
  unfold generate_recommendation
  split_ifs with h1 h2 h3 h4 <;>
    refine ⟨⟨fun hx => ?_, fun hx => ?_⟩, ⟨fun hx => ?_, fun hx => ?_⟩,
      ⟨fun hx => ?_, fun hx => ?_⟩, ⟨fun hx => ?_, fun hx => ?_⟩,
      ⟨fun hx => ?_, fun hx => ?_⟩⟩ <;>
    first
      | rfl
      | linarith
      | (constructor <;> linarith)
      | (exact absurd hx (by simp))

/-- Clamping to [0, 1] can be written in either nesting order. -/
theorem max_min_zero_one (x : ℚ) : max 0 (min 1 x) = min 1 (max 0 x) := by
  rw [max_min_distrib_left, max_eq_right zero_le_one]

/-- The customer features used by the C6 counterexample: an NPS score of 3
and a plan price of 333 give an unclamped heuristic elasticity of -1.70675,
which the source then rounds to two decimals. -/
def elFeatures : Features :=
  [("nps_score", 3), ("plan_price", 333), ("avg_monthly_usage_gb", 0)]

/-- NPS lookup on the counterexample features. -/
theorem elF_nps : elFeatures.get "nps_score" 5 = 3 := rfl

/-- Plan price lookup on the counterexample features. -/
theorem elF_price : elFeatures.get "plan_price" 1000 = 333 := rfl

/-- Usage lookup on the counterexample features. -/
theorem elF_usage : elFeatures.get "avg_monthly_usage_gb" 200 = 0 := rfl

/-- Counterexample to C6 as stated: on `elFeatures` the heuristic returns
the clamped formula value rounded to 2 decimals (-1.71), which differs from
the exact clamped formula value (-1.70675) that the claim asserts is
returned. -/
theorem elasticity_not_exact_clamped_formula :
    estimate_price_elasticity elFeatures ≠
      max (-2.5) (min (-0.2)
        (-2.0 + 0.7 * (elFeatures.get "nps_score" 5 / 10) +
         0.5 * min (elFeatures.get "plan_price" 1000 / 2000) 1 +
         0.3 * min (elFeatures.get "avg_monthly_usage_gb" 200 / 500) 1)) := by
  simp only [estimate_price_elasticity, elF_nps, elF_price, elF_usage]
  norm_num [roundTo, roundHalfEven]

/-- Rounding to 2 decimals preserves the clamp interval [-2.5, -0.2],
whose endpoints are exact multiples of 0.01. -/
theorem roundTo2_clamp_bounds (x : ℚ) :
    -2.5 ≤ roundTo 2 (max (-2.5) (min (-0.2) x)) ∧
      roundTo 2 (max (-2.5) (min (-0.2) x)) ≤ -0.2 := by
  constructor
  · have h1 : ((-250 : ℤ) : ℚ) / 10 ^ 2 ≤ max (-2.5) (min (-0.2) x) := by
      push_cast
      norm_num
    have h2 := le_roundTo h1
    push_cast at h2
    norm_num at h2
    linarith
  · have h1 : max (-2.5) (min (-0.2) x) ≤ ((-20 : ℤ) : ℚ) / 10 ^ 2 := by
      push_cast
      norm_num
    have h2 := roundTo_le h1
    push_cast at h2
    norm_num at h2
    linarith

/-- Every value the segmentation-delegated path can return (one of the five
segment elasticities, or the -1.0 default) lies in [-2.5, -0.2]. -/
theorem delegated_elasticity_bounds (segment_id : ℕ) :
    -2.5 ≤ delegated_price_elasticity segment_id ∧
      delegated_price_elasticity segment_id ≤ -0.2 := by
  rcases segment_id with _ | _ | _ | _ | _ | m
  · norm_num [delegated_price_elasticity, segment_elasticity, Option.getD]
  · norm_num [delegated_price_elasticity, segment_elasticity, Option.getD]
  · norm_num [delegated_price_elasticity, segment_elasticity, Option.getD]
  · norm_num [delegated_price_elasticity, segment_elasticity, Option.getD]
  · norm_num [delegated_price_elasticity, segment_elasticity, Option.getD]
  · show -2.5 ≤ delegated_price_elasticity (m + 5) ∧
      delegated_price_elasticity (m + 5) ≤ -0.2
    have hnone : segment_elasticity (m + 5) = none := rfl
    norm_num [delegated_price_elasticity, hnone, Option.getD]

/-- C6 (amended): the heuristic branch of `estimate_price_elasticity`
returns the formula `-2.0 + 0.7*(nps/10) + 0.5*min(plan_price/2000, 1) +
0.3*min(usage/500, 1)` clamped to [-2.5, -0.2] and then rounded to 2
decimal places; both the fallback value and every value the
segmentation-delegated path can deliver lie in [-2.5, -0.2]. -/
theorem elasticity_formula_rounded_and_bounds (features : Features) :
    estimate_price_elasticity features =
      roundTo 2 (max (-2.5) (min (-0.2)
        (-2.0 + 0.7 * (features.get "nps_score" 5 / 10) +
         0.5 * min (features.get "plan_price" 1000 / 2000) 1 +
         0.3 * min (features.get "avg_monthly_usage_gb" 200 / 500) 1))) ∧
    (-2.5 ≤ estimate_price_elasticity features ∧
      estimate_price_elasticity features ≤ -0.2) ∧
    ∀ segment_id : ℕ, -2.5 ≤ delegated_price_elasticity segment_id ∧
      delegated_price_elasticity segment_id ≤ -0.2 := by
  have key : ∀ a b c : ℚ,
      -2.0 + a / 10 * 0.7 + min (b / 2000) 1 * 0.5 + min (c / 500) 1 * 0.3 =
      -2.0 + 0.7 * (a / 10) + 0.5 * min (b / 2000) 1 + 0.3 * min (c / 500) 1 := by
    intro a b c
    ring
  have hform : estimate_price_elasticity features =
      roundTo 2 (max (-2.5) (min (-0.2)
        (-2.0 + 0.7 * (features.get "nps_score" 5 / 10) +
         0.5 * min (features.get "plan_price" 1000 / 2000) 1 +
         0.3 * min (features.get "avg_monthly_usage_gb" 200 / 500) 1))) := by
    simp only [estimate_price_elasticity]
    rw [key]
  refine ⟨hform, ⟨?_, ?_⟩, fun sid => delegated_elasticity_bounds sid⟩
  · rw [hform]
    exact (roundTo2_clamp_bounds _).1
  · rw [hform]
    exact (roundTo2_clamp_bounds _).2

/-- The min-max normalization is nonnegative regardless of inputs. -/
theorem normalizeVal_nonneg (v m M : ℚ) : 0 ≤ normalizeVal v m M := le_max_left _ _

/-- The min-max normalization never exceeds one. -/
theorem normalizeVal_le_one (v m M : ℚ) : normalizeVal v m M ≤ 1 :=
  max_le zero_le_one (min_le_left _ _)

/-- The customer features used by the C3 counterexample: an out-of-range NPS
score of 20. -/
def churnFeatures : Features := [("nps_score", 20)]

/-- Counterexample to C3 as stated: with an NPS score of 20 (all other
features absent) the churn fallback returns -0.2, outside [0, 1], because
the NPS term `1 - nps/10` is not clamped. -/
theorem churn_risk_not_in_unit_interval :
    calculate_churn_risk churnFeatures = -0.2 ∧
    ¬ (0 ≤ calculate_churn_risk churnFeatures) := by
  have hnps : churnFeatures.get "nps_score" 5 = 20 := rfl
  have h1 : churnFeatures.get "usage_change_30d" 0 = 0 := rfl
  have h2 : churnFeatures.get "days_since_login" 0 = 0 := rfl
  have h3 : churnFeatures.get "payment_failures_90d" 0 = 0 := rfl
  have h4 : churnFeatures.get "support_tickets" 0 = 0 := rfl
  have hval : calculate_churn_risk churnFeatures = -0.2 := by
    simp only [calculate_churn_risk, hnps, h1, h2, h3, h4]
    norm_num [normalizeVal, roundTo, roundHalfEven]
  exact ⟨hval, by rw [hval]; norm_num⟩

/-- C3 (amended): for every feature map, the churn fallback returns the
weighted sum `0.25*norm(usage_decline,0,30) + 0.20*norm(days_since_login,
0,30) + 0.20*norm(payment_failures,0,3) + 0.15*norm(support_tickets,0,5) +
0.20*(1 - nps/10)` with each norm clamped to [0,1], rounded to 4 decimals;
the returned value lies in [0, 1] whenever the NPS score lies in [0, 10]
(the NPS term itself is not clamped, so out-of-range NPS values can leave
the interval). -/
theorem churn_risk_formula_and_bounds (features : Features)
    (h0 : 0 ≤ features.get "nps_score" 5) (h10 : features.get "nps_score" 5 ≤ 10) :
    calculate_churn_risk features =
      roundTo 4
        (0.25 * min 1 (max 0 (-(features.get "usage_change_30d" 0) / 30)) +
         0.20 * min 1 (max 0 (features.get "days_since_login" 0 / 30)) +
         0.20 * min 1 (max 0 (features.get "payment_failures_90d" 0 / 3)) +
         0.15 * min 1 (max 0 (features.get "support_tickets" 0 / 5)) +
         0.20 * (1 - features.get "nps_score" 5 / 10)) ∧
    0 ≤ calculate_churn_risk features ∧ calculate_churn_risk features ≤ 1 := by
  have hn30 : ∀ v : ℚ, normalizeVal v 0 30 = min 1 (max 0 (v / 30)) := by
    intro v
    unfold normalizeVal
    rw [max_min_zero_one]
    norm_num
  have hn3 : ∀ v : ℚ, normalizeVal v 0 3 = min 1 (max 0 (v / 3)) := by
    intro v
    unfold normalizeVal
    rw [max_min_zero_one]
    norm_num
  have hn5 : ∀ v : ℚ, normalizeVal v 0 5 = min 1 (max 0 (v / 5)) := by
    intro v
    unfold normalizeVal
    rw [max_min_zero_one]
    norm_num
  have hform : calculate_churn_risk features =
      roundTo 4
        (0.25 * min 1 (max 0 (-(features.get "usage_change_30d" 0) / 30)) +
         0.20 * min 1 (max 0 (features.get "days_since_login" 0 / 30)) +
         0.20 * min 1 (max 0 (features.get "payment_failures_90d" 0 / 3)) +
         0.15 * min 1 (max 0 (features.get "support_tickets" 0 / 5)) +
         0.20 * (1 - features.get "nps_score" 5 / 10)) := by
    simp only [calculate_churn_risk]
    rw [hn30, hn30, hn3, hn5]
  have t1 := normalizeVal_nonneg (-(features.get "usage_change_30d" 0)) 0 30
  have t2 := normalizeVal_nonneg (features.get "days_since_login" 0) 0 30
  have t3 := normalizeVal_nonneg (features.get "payment_failures_90d" 0) 0 3
  have t4 := normalizeVal_nonneg (features.get "support_tickets" 0) 0 5
  have u1 := normalizeVal_le_one (-(features.get "usage_change_30d" 0)) 0 30
  have u2 := normalizeVal_le_one (features.get "days_since_login" 0) 0 30
  have u3 := normalizeVal_le_one (features.get "payment_failures_90d" 0) 0 3
  have u4 := normalizeVal_le_one (features.get "support_tickets" 0) 0 5
  refine ⟨hform, ?_, ?_⟩
  · simp only [calculate_churn_risk]
    apply roundTo_nonneg
    have t5 : 0 ≤ 1 - features.get "nps_score" 5 / 10 := by linarith
    linarith
  · simp only [calculate_churn_risk]
    apply roundTo_le_one
    have u5 : 1 - features.get "nps_score" 5 / 10 ≤ 1 := by linarith
    linarith

/-- Witness for C3 at a concrete feature map (all lookups take their
defaults, so the NPS score is 5). -/
theorem churn_risk_formula_and_bounds_witness :
    (0 ≤ testFeatures.get "nps_score" 5) ∧ (testFeatures.get "nps_score" 5 ≤ 10) ∧
    (calculate_churn_risk testFeatures =
      roundTo 4
        (0.25 * min 1 (max 0 (-(testFeatures.get "usage_change_30d" 0) / 30)) +
         0.20 * min 1 (max 0 (testFeatures.get "days_since_login" 0 / 30)) +
         0.20 * min 1 (max 0 (testFeatures.get "payment_failures_90d" 0 / 3)) +
         0.15 * min 1 (max 0 (testFeatures.get "support_tickets" 0 / 5)) +
         0.20 * (1 - testFeatures.get "nps_score" 5 / 10)) ∧
      0 ≤ calculate_churn_risk testFeatures ∧ calculate_churn_risk testFeatures ≤ 1) :=
  ⟨by norm_num [testFeatures, Features.get],
   by norm_num [testFeatures, Features.get],
   churn_risk_formula_and_bounds testFeatures
     (by norm_num [testFeatures, Features.get])
     (by norm_num [testFeatures, Features.get])⟩

/-- A call with a nonzero base price succeeds and appends its result. -/
theorem calc_some (s : EngineState) (bp : ℚ) (f : Features) (ts : Timestamp)
    (h : bp ≠ 0) :
    calculate_dynamic_price s bp f ts =
      some ({ s with history := s.history ++ [mkPricingResult s bp f ts] },
        mkPricingResult s bp f ts) := by
  unfold calculate_dynamic_price
  rw [if_neg h]

/-- The engine after one successful pricing call on a fresh engine. -/
def engineAfterOneCall : EngineState :=
  stateAfter (calculate_dynamic_price initEngine 1000 testFeatures testTs)

/-- Counterexample to C5 as stated: after one pricing call has appended a
result to the history, `update_weights` with only beta set changes the
weights breakdown observed through that previously returned result, because
the stored weights entry is a live reference to the engine's weights dict
rather than a copy. -/
theorem recorded_weights_mutate_after_update :
    engineAfterOneCall.history.length = 1 ∧
    recordedWeights (update_weights engineAfterOneCall none (some 0.5) none) 0 ≠
      recordedWeights engineAfterOneCall 0 := by
  have hsa : engineAfterOneCall =
      { initEngine with
        history := initEngine.history ++ [mkPricingResult initEngine 1000 testFeatures testTs] } := by
    unfold engineAfterOneCall stateAfter
    rw [calc_some initEngine 1000 testFeatures testTs (by norm_num)]
  constructor
  · rw [hsa]
    rfl
  · rw [hsa]
    intro hEq
    have hbeta := congrArg Weights.beta hEq
    simp [recordedWeights, update_weights, initEngine, defaultWeights] at hbeta
    norm_num at hbeta

/-- C5 (amended): all scalar fields, the recommendation and the timestamp of
every previously returned pricing result are unchanged by subsequent engine
operations (the history list itself is untouched by `update_weights`, as are
the constraints and demand configuration); only the recorded weights
breakdown is retroactively changed, because it aliases the engine's live
weights dict. -/
theorem history_immutable_except_weights (s : EngineState)
    (alpha beta gamma : Option ℚ) (i : ℕ) :
    (update_weights s alpha beta gamma).history = s.history ∧
    (update_weights s alpha beta gamma).constraints = s.constraints ∧
    (update_weights s alpha beta gamma).demand_factors = s.demand_factors ∧
    recordedWeights (update_weights s alpha beta gamma) i =
      ⟨alpha.getD s.weights.alpha, beta.getD s.weights.beta, gamma.getD s.weights.gamma⟩ := by
  rcases alpha with _ | a <;> rcases beta with _ | b <;> rcases gamma with _ | g <;>
    simp [update_weights, recordedWeights]

/-- The demand factor at the test timestamp: weekday peak. -/
theorem demand_eval : calculate_demand_factor defaultDemandFactors testTs = 0.15 := by
  unfold calculate_demand_factor defaultDemandFactors testTs roundTo roundHalfEven
  norm_num

/-- The heuristic elasticity on all-default features. -/
theorem elasticity_eval : estimate_price_elasticity testFeatures = -1.28 := by
  have h1 : testFeatures.get "nps_score" 5 = 5 := rfl
  have h2 : testFeatures.get "plan_price" 1000 = 1000 := rfl
  have h3 : testFeatures.get "avg_monthly_usage_gb" 200 = 200 := rfl
  simp only [estimate_price_elasticity, h1, h2, h3]
  norm_num [min_def, max_def, roundTo, roundHalfEven]

/-- The heuristic churn risk on all-default features. -/
theorem churn_eval : calculate_churn_risk testFeatures = 0.1 := by
  have h1 : testFeatures.get "usage_change_30d" 0 = 0 := rfl
  have h2 : testFeatures.get "days_since_login" 0 = 0 := rfl
  have h3 : testFeatures.get "payment_failures_90d" 0 = 0 := rfl
  have h4 : testFeatures.get "support_tickets" 0 = 0 := rfl
  have h5 : testFeatures.get "nps_score" 5 = 5 := rfl
  simp only [calculate_churn_risk, h1, h2, h3, h4, h5]
  norm_num [normalizeVal, min_def, max_def, roundTo, roundHalfEven]

/-- The applied adjustment of a fresh-engine call on all-default features at
the test timestamp. -/
theorem adj_eval : adjustmentOf initEngine testFeatures testTs = -409/9200 := by
  unfold adjustmentOf
  rw [show initEngine.weights = defaultWeights from rfl,
    show initEngine.constraints = defaultConstraints from rfl,
    show initEngine.demand_factors = defaultDemandFactors from rfl,
    demand_eval, elasticity_eval, churn_eval]
  unfold clampedAdjustment rawAdjustment elasticityFactor defaultWeights defaultConstraints
  norm_num [min_def, max_def]

/-- Counterexample to C2 as stated: at base price 0.004 the dynamic_price
entry of the returned result is 0 (the computed price 0.0038... rounded to 2
decimals), which is neither equal to the floored product (which is nonzero)
nor at least 0.5 times the base price. -/
theorem returned_dynamic_price_below_half_base :
    (calculate_dynamic_price initEngine (1/250) testFeatures testTs).map
        (fun p => p.2.dynamic_price) = some 0 ∧
    dynamicPriceRaw (1/250) (adjustmentOf initEngine testFeatures testTs) ≠ 0 ∧
    ¬ ((1/250 : ℚ) * 0.5 ≤ 0) := by
  have hdyn : dynamicPriceRaw (1/250) (-409/9200) = 8791/2300000 := by
    unfold dynamicPriceRaw
    norm_num [max_def]
  refine ⟨?_, ?_, by norm_num⟩
  · rw [calc_some initEngine (1/250) testFeatures testTs (by norm_num)]
    simp only [Option.map_some']
    have hproj : (mkPricingResult initEngine (1/250) testFeatures testTs).dynamic_price =
        roundTo 2 (dynamicPriceRaw (1/250) (adjustmentOf initEngine testFeatures testTs)) := rfl
    rw [hproj, adj_eval, hdyn]
    norm_num [roundTo, roundHalfEven]
  · rw [adj_eval, hdyn]
    norm_num

/-- C2 (amended): for every call with base_price > 0, the computed dynamic
price equals base_price * (1 + adjustment) floored at 0.5 * base_price, so
the computed dynamic price is at least 0.5 * base_price; the dynamic_price
entry of the returned result is that value rounded to 2 decimals. -/
theorem dynamic_price_floor_spec (base_price : ℚ) (h : 0 < base_price) :
    (∀ adj : ℚ,
      dynamicPriceRaw base_price adj =
        (if base_price * (1 + adj) < 0.5 * base_price then 0.5 * base_price
         else base_price * (1 + adj)) ∧
      0.5 * base_price ≤ dynamicPriceRaw base_price adj) ∧
    (∀ (s : EngineState) (features : Features) (ts : Timestamp),
      (calculate_dynamic_price s base_price features ts).map (fun p => p.2.dynamic_price) =
      (calculate_dynamic_price s base_price features ts).map
        (fun _ => roundTo 2 (dynamicPriceRaw base_price (adjustmentOf s features ts)))) := by
  constructor
  · intro adj
    constructor
    · unfold dynamicPriceRaw
      rcases lt_or_le (base_price * (1 + adj)) (0.5 * base_price) with hlt | hle
      · rw [if_pos hlt, max_eq_left (by linarith)]
        ring
      · rw [if_neg (not_lt.mpr hle), max_eq_right (by linarith)]
    · have hm := le_max_left (base_price * 0.5) (base_price * (1 + adj))
      unfold dynamicPriceRaw
      linarith
  · intro s features ts
    rw [calc_some s base_price features ts (ne_of_gt h)]
    simp only [Option.map_some']
    rfl

/-- Witness for C2 at base price 1000, adjustment 0, and a concrete call. -/
theorem dynamic_price_floor_spec_witness :
    (0 : ℚ) < 1000 ∧
    (dynamicPriceRaw 1000 0 =
        (if (1000 : ℚ) * (1 + 0) < 0.5 * 1000 then 0.5 * 1000 else 1000 * (1 + 0)) ∧
      (0.5 : ℚ) * 1000 ≤ dynamicPriceRaw 1000 0) ∧
    ((calculate_dynamic_price initEngine 1000 testFeatures testTs).map
        (fun p => p.2.dynamic_price) =
      (calculate_dynamic_price initEngine 1000 testFeatures testTs).map
        (fun _ => roundTo 2 (dynamicPriceRaw 1000 (adjustmentOf initEngine testFeatures testTs)))) :=
  ⟨by norm_num, (dynamic_price_floor_spec 1000 (by norm_num)).1 0,
    (dynamic_price_floor_spec 1000 (by norm_num)).2 initEngine testFeatures testTs⟩

/-- When every base price in the batch is nonzero, the per-customer loop
succeeds, produces one result per pair, and its totals are the sum of the
base prices and the sum of the stored dynamic prices. -/
theorem optimize_loop_total (now : Timestamp) :
    ∀ (pairs : List (Features × ℚ)) (s : EngineState),
      (∀ p ∈ pairs, p.2 ≠ 0) →
      ∃ s2 results,
        optimize_loop now s pairs =
          some (s2, results, (pairs.map Prod.snd).sum,
            (results.map PricingResult.dynamic_price).sum) ∧
        results.length = pairs.length := by
  intro pairs
  induction pairs with
  | nil =>
    intro s _
    exact ⟨s, [], by simp [optimize_loop], rfl⟩
  | cons hd tl ih =>
    intro s hall
    rcases hd with ⟨f, bp⟩
    have hbp : bp ≠ 0 := hall (f, bp) (by simp)
    obtain ⟨s2, results, hloop, hlen⟩ :=
      ih { s with history := s.history ++ [mkPricingResult s bp f now] }
        (fun p hp => hall p (List.mem_cons_of_mem _ hp))
    refine ⟨s2, mkPricingResult s bp f now :: results, ?_, by simp [hlen]⟩
    simp only [optimize_loop]
    rw [calc_some s bp f now hbp]
    simp only [hloop, List.map_cons, List.sum_cons]

/-- C10 (amended): `optimize_revenue` on empty customer and price lists does
not return a result (it reaches the unguarded division by the zero total
base revenue); on every pair of non-empty equal-length lists whose base
prices are all positive it returns normally, with customers_processed equal
to the list length, one individual result per customer, and
total_dynamic_revenue the rounded sum of the per-customer dynamic
prices. -/
theorem optimize_revenue_batch :
    (∀ (s : EngineState) (now : Timestamp), optimize_revenue s [] [] now = none) ∧
    (∀ (s : EngineState) (customers : List Features) (base_prices : List ℚ)
      (now : Timestamp),
      customers ≠ [] → customers.length = base_prices.length →
      (∀ bp ∈ base_prices, 0 < bp) →
      ∃ s2 res, optimize_revenue s customers base_prices now = some (s2, res) ∧
        res.customers_processed = customers.length ∧
        res.individual_results.length = customers.length ∧
        res.total_dynamic_revenue =
          roundTo 2 (res.individual_results.map PricingResult.dynamic_price).sum) := by
  constructor
  · intro s now
    simp [optimize_revenue, optimize_loop]
  · intro s customers base_prices now hne hlen hpos
    have hz : ∀ p ∈ customers.zip base_prices, p.2 ≠ 0 := by
      intro p hp
      exact (hpos p.2 (List.of_mem_zip hp).2).ne'
    obtain ⟨s2, results, hloop, hrlen⟩ := optimize_loop_total now (customers.zip base_prices) s hz
    have hsnd : (customers.zip base_prices).map Prod.snd = base_prices :=
      List.map_snd_zip customers base_prices hlen.ge
    have hbne : base_prices ≠ [] := by
      intro hnil
      apply hne
      have := hlen
      rw [hnil] at this
      simpa using List.eq_nil_of_length_eq_zero (by simpa using this)
    have hsum : (0 : ℚ) < base_prices.sum := List.sum_pos base_prices hpos hbne
    have hzlen : (customers.zip base_prices).length = customers.length := by
      rw [List.length_zip, hlen, min_self]
    have hlenres : results.length = customers.length := by rw [hrlen, hzlen]
    have hresne : results.length ≠ 0 := by
      rw [hlenres]
      simpa using hne
    have hopt : optimize_revenue s customers base_prices now =
        some (s2,
          { total_base_revenue := roundTo 2 base_prices.sum
            total_dynamic_revenue := roundTo 2 (results.map PricingResult.dynamic_price).sum
            revenue_change :=
              roundTo 2 ((results.map PricingResult.dynamic_price).sum - base_prices.sum)
            revenue_change_percent :=
              roundTo 2 (((results.map PricingResult.dynamic_price).sum - base_prices.sum)
                / base_prices.sum * 100)
            customers_processed := customers.length
            avg_price_change_pct :=
              roundTo 2 ((results.map PricingResult.price_change_percent).sum
                / (results.length : ℚ))
            individual_results := results }) := by
      unfold optimize_revenue
      rw [hloop]
      simp only [hsnd]
      rw [if_neg hsum.ne', if_neg hresne]
    exact ⟨s2, _, hopt, rfl, hlenres, rfl⟩

/-- Witness for C10: the empty batch yields no result, and a concrete
one-customer batch with a positive base price returns normally. -/
theorem optimize_revenue_batch_witness :
    optimize_revenue initEngine [] [] testTs = none ∧
    ([testFeatures] ≠ []) ∧
    ([testFeatures].length = [(1000 : ℚ)].length) ∧
    (∀ bp ∈ [(1000 : ℚ)], 0 < bp) ∧
    (∃ s2 res, optimize_revenue initEngine [testFeatures] [1000] testTs = some (s2, res) ∧
      res.customers_processed = [testFeatures].length ∧
      res.individual_results.length = [testFeatures].length ∧
      res.total_dynamic_revenue =
        roundTo 2 (res.individual_results.map PricingResult.dynamic_price).sum) :=
  ⟨optimize_revenue_batch.1 initEngine testTs, by simp, rfl, by norm_num,
    optimize_revenue_batch.2 initEngine [testFeatures] [1000] testTs (by simp) rfl
      (by norm_num)⟩

/-- Counterexample to C10 as stated: a non-empty pair of equal-length lists
whose single base price is 0 does not return normally; the per-customer call
divides by the zero base price and no result is produced. -/
theorem optimize_revenue_zero_price_crashes :
    ([testFeatures] ≠ []) ∧
    ([testFeatures].length = [(0 : ℚ)].length) ∧
    optimize_revenue initEngine [testFeatures] [0] testTs = none := by
  refine ⟨by simp, rfl, ?_⟩
  simp [optimize_revenue, optimize_loop, calculate_dynamic_price]
